import Mathlib

/-!
Shallow embedding of the safety core of the `solana-pipkit` repository
(`src/safety/address_verify.rs`, `src/safety/amount_validation.rs`,
`src/safety/validator.rs`) together with proofs about it.

Modelling conventions:
* Rust `u64` amounts and balances become `Nat`; wrap-around is modelled with
  explicit `% 2 ^ 64` exactly where the Rust arithmetic can wrap
  (`10u64.pow(decimals)` in release profile).
* Rust `f64` arithmetic is modelled by exact rational arithmetic (`ℚ`).
  All concrete inputs appearing in the theorems below are exactly
  representable in binary64, where both semantics agree.  The constant
  `u64::MAX as f64` rounds up to `2 ^ 64`, and an `as u64` cast of a float
  saturates; both are modelled explicitly.
* Rust `Result` becomes `Except`, `Option` stays `Option`.
* `str::len` counts UTF-8 bytes, modelled by `String.utf8ByteSize`.
-/

/-- Base58 alphabet used by the `bs58` crate (no `0`, `O`, `I`, `l`). -/
def base58Alphabet : String := "123456789ABCDEFGHJKLMNPQRSTUVWXYZabcdefghijkmnopqrstuvwxyz"

/-- Digit of value `n` in the base58 alphabet. -/
def b58Digit (n : Nat) : Char := base58Alphabet.toList.getD n '?'

/-- Value of a base58 character, `none` for characters outside the alphabet. -/
def b58CharValue (c : Char) : Option Nat := base58Alphabet.toList.indexOf? c

/-- Little-endian base58 digits of `n` (fuel-bounded division loop). -/
def natToB58Rev : Nat → Nat → List Char
  | 0, _ => []
  | fuel + 1, n => if n = 0 then [] else b58Digit (n % 58) :: natToB58Rev fuel (n / 58)

/-- Little-endian base-256 digits of `n` (fuel-bounded division loop). -/
def natToBytesRev : Nat → Nat → List Nat
  | 0, _ => []
  | fuel + 1, n => if n = 0 then [] else (n % 256) :: natToBytesRev fuel (n / 256)

/-- Accumulate the numeric value of a base58 string, `none` on an invalid character. -/
def natFromB58 (cs : List Char) : Option Nat :=
  cs.foldl (fun acc c =>
    match acc, b58CharValue c with
    | some v, some d => some (v * 58 + d)
    | _, _ => none) (some 0)

/-- A Solana public key: 32 raw bytes (`solana_sdk::pubkey::Pubkey`). -/
structure Pubkey where
  bytes : List Nat
deriving DecidableEq, Repr

/-- `Pubkey::to_string` / `Display`: base58 encoding of the 32 bytes
(leading zero bytes become leading `1` characters). -/
def Pubkey.to_string (pk : Pubkey) : String :=
  let leadingZeros := (pk.bytes.takeWhile (fun b => b == 0)).length
  let value := pk.bytes.foldl (fun acc b => acc * 256 + b) 0
  String.mk (List.replicate leadingZeros (b58Digit 0) ++ (natToB58Rev 64 value).reverse)

/-- `bs58::decode(s).into_vec()`: leading `1`s become leading zero bytes,
the rest is the big-endian byte expansion of the accumulated value. -/
def base58DecodeBytes (s : String) : Option (List Nat) :=
  match natFromB58 s.toList with
  | none => none
  | some v =>
    let leadingOnes := (s.toList.takeWhile (fun c => c == '1')).length
    some (List.replicate leadingOnes 0 ++ (natToBytesRev 64 v).reverse)

/-- `Pubkey::from_str`: length guard (≤ 44), base58 decode, 32-byte size check.
Error strings follow `ParsePubkeyError`'s `Display`. -/
def Pubkey.from_str (s : String) : Except String Pubkey :=
  if 44 < s.utf8ByteSize then .error "String is the wrong size"
  else
    match base58DecodeBytes s with
    | none => .error "Invalid Base58 string"
    | some bytes =>
      if bytes.length = 32 then .ok ⟨bytes⟩ else .error "String is the wrong size"

/-- The two `ToolkitError` variants the safety module constructs.
Modelled from the spec: `src/error.rs` in the snapshot does not declare the
`InvalidAddress { address, reason }` and `AmountValidation { message }`
variants that `safety/address_verify.rs` and `safety/amount_validation.rs`
construct; the fields are taken from those use sites (the spec's
`AddressError` / `AmountError` taxonomy).  Only the `reason`/`message`
strings built in `src/safety` matter to any claim. -/
inductive ToolkitError where
  | InvalidAddress (address : String) (reason : String)
  | AmountValidation (message : String)
deriving DecidableEq, Repr

/-- Display rendering of the two modelled error variants (thiserror-style
`"<context>: <detail>"`; no claim depends on this text, it only feeds the
opaque blocker strings of the validator). -/
def ToolkitError.display : ToolkitError → String
  | .InvalidAddress address reason => "Invalid address " ++ address ++ ": " ++ reason
  | .AmountValidation message => "Amount validation error: " ++ message

instance {ε α : Type} [DecidableEq ε] [DecidableEq α] : DecidableEq (Except ε α)
  | .ok a, .ok b =>
    if h : a = b then .isTrue (by rw [h]) else .isFalse (by simp [h])
  | .ok _, .error _ => .isFalse (by simp)
  | .error _, .ok _ => .isFalse (by simp)
  | .error e, .error f =>
    if h : e = f then .isTrue (by rw [h]) else .isFalse (by simp [h])

/-- Rust `str::contains(pattern)`: substring search. -/
def strContains (s pat : String) : Bool :=
  let sl := s.toList
  let pl := pat.toList
  (List.range (sl.length + 1)).any (fun i => pl.isPrefixOf (sl.drop i))

/-- Rust `str::trim_end_matches(c)`: drop every trailing occurrence of `c`. -/
def trimEndMatches (s : String) (c : Char) : String :=
  String.mk ((s.toList.reverse.dropWhile (fun x => x == c)).reverse)

/-- `is_valid_base58_char` from `safety/address_verify.rs`: the accepted
alphabet ranges (base58 excludes `0`, `O`, `I`, `l`). -/
def is_valid_base58_char (c : Char) : Bool :=
  ('1' ≤ c && c ≤ '9') || ('A' ≤ c && c ≤ 'H') || ('J' ≤ c && c ≤ 'N') ||
  ('P' ≤ c && c ≤ 'Z') || ('a' ≤ c && c ≤ 'k') || ('m' ≤ c && c ≤ 'z')

namespace AddressVerifier

/-- `AddressVerifier::verify_address`: empty check (before trimming), trim,
byte-length range check, alphabet check, then `Pubkey::from_str`. -/
def verify_address (address : String) : Except ToolkitError Pubkey :=
  if address.isEmpty then
    .error (.InvalidAddress address "Address cannot be empty")
  else
    let address := address.trim
    if address.utf8ByteSize < 32 || 44 < address.utf8ByteSize then
      .error (.InvalidAddress address
        ("Invalid length: expected 32-44 characters, got " ++ toString address.utf8ByteSize))
    else
      let invalid_chars := address.toList.filter (fun c => !(is_valid_base58_char c))
      if !invalid_chars.isEmpty then
        .error (.InvalidAddress address
          ("Invalid base58 characters: " ++ toString invalid_chars ++
            ". Base58 does not include 0, O, I, or l"))
      else
        match Pubkey.from_str address with
        | .ok pk => .ok pk
        | .error e => .error (.InvalidAddress address ("Failed to parse address: " ++ e))

/-- `AddressVerifier::format_address_short`: `"<first 4>...<last 4>"`,
or the full string when its length is at most 8. -/
def format_address_short (pubkey : Pubkey) : String :=
  let full := pubkey.to_string
  if full.length ≤ 8 then full
  else full.take 4 ++ "..." ++ full.drop (full.length - 4)

end AddressVerifier

/-- `AddressComparison` from `safety/address_verify.rs`. -/
structure AddressComparison where
  «matches» : Bool
  difference_count : Nat
  difference_positions : List Nat
  likely_typo : Bool
deriving DecidableEq, Repr

namespace AddressVerifier

/-- `AddressVerifier::compare_addresses`: trim both, early return on equality,
otherwise positional character comparison over the longer length. -/
def compare_addresses (addr1 addr2 : String) : AddressComparison :=
  let trimmed1 := addr1.trim
  let trimmed2 := addr2.trim
  if trimmed1 = trimmed2 then
    { «matches» := true, difference_count := 0, difference_positions := [], likely_typo := false }
  else
    let chars1 := trimmed1.toList
    let chars2 := trimmed2.toList
    let max_len := max chars1.length chars2.length
    let differences := (List.range max_len).filter (fun i => chars1[i]? != chars2[i]?)
    let difference_count := differences.length
    let likely_typo := decide (0 < difference_count) && decide (difference_count ≤ 2)
    { «matches» := false, difference_count := difference_count,
      difference_positions := differences, likely_typo := likely_typo }

end AddressVerifier

/-- `u64::MAX`. -/
def u64Max : Nat := 2 ^ 64 - 1

/-- `AmountValidation` from `safety/amount_validation.rs`. -/
structure AmountValidation where
  is_valid : Bool
  warnings : List String
  requires_confirmation : Bool
  human_readable : String
  amount : Nat
deriving DecidableEq, Repr

namespace AmountValidator

/-- `token_to_human_amount`: `amount / 10^decimals` (exact-rational model of
the `f64` division; `10u64.pow` wrap kept explicit). -/
def token_to_human_amount (token_amount : Nat) (decimals : Nat) : ℚ :=
  let divisor : Nat := 10 ^ decimals % 2 ^ 64
  (token_amount : ℚ) / (divisor : ℚ)

/-- Fixed-point rendering of a natural number of base units with `decimals`
fractional digits; agrees with Rust's `format!("{:.decimals$}", human)`
whenever the `f64` value is exact. -/
def formatBaseUnits (amount : Nat) (decimals : Nat) : String :=
  if decimals = 0 then toString amount
  else
    let divisor := 10 ^ decimals
    let fracStr := toString (amount % divisor)
    toString (amount / divisor) ++ "." ++
      String.mk (List.replicate (decimals - fracStr.length) '0') ++ fracStr

/-- `format_amount`: decimals-wide fixed-point display of `amount / 10^decimals`. -/
def format_amount (amount : Nat) (decimals : Nat) : String :=
  formatBaseUnits amount decimals

/-- Fixed-point rendering of a nonnegative rational with `k` fractional
digits (`format!("{:.k$}", q)` under the exact-rational model of `f64`;
ties round half-up rather than half-to-even, which no claim exercises). -/
def formatQFixed (q : ℚ) (k : Nat) : String :=
  formatBaseUnits (round (q * (10 ^ k : ℕ))).toNat k

/-- Rust `{:.6}` applied to a string truncates it to 6 characters. -/
def truncatePrecision (s : String) (k : Nat) : String := s.take k

/-- The percentage `amount / balance * 100` computed in `validate_amount`
(exact-rational model of the `f64` arithmetic). -/
def percentage (amount balance : Nat) : ℚ :=
  (amount : ℚ) / (balance : ℚ) * 100

/-- `AmountValidator::validate_amount`: near-full-balance warnings, zero
check, exceeds-balance check, and `is_valid = amount <= balance && amount > 0`. -/
def validate_amount (amount decimals balance : Nat) : AmountValidation :=
  let warnings : List String := []
  let wrc : List String × Bool :=
    if 0 < balance then
      let pct := percentage amount balance
      if 99 < pct then
        (warnings ++ ["Sending entire balance. No funds will remain for fees."], true)
      else if 90 < pct then
        (warnings ++ ["Sending " ++ formatQFixed pct 1 ++ "% of balance. Only " ++
          truncatePrecision (format_amount (balance - amount) decimals) 6 ++
          " will remain."], true)
      else (warnings, false)
    else (warnings, false)
  let warnings := if amount = 0 then wrc.1 ++ ["Amount is zero."] else wrc.1
  let warnings :=
    if balance < amount then
      warnings ++ ["Amount (" ++ format_amount amount decimals ++ ") exceeds balance (" ++
        format_amount balance decimals ++ ")."]
    else warnings
  { is_valid := decide (amount ≤ balance) && decide (0 < amount)
    warnings := warnings
    requires_confirmation := wrc.2
    human_readable := format_amount amount decimals
    amount := amount }

/-- `AmountValidator::human_to_token_amount`: sign and NaN guards, multiply
by `10^decimals`, overflow check against `u64::MAX as f64` (which rounds up
to `2^64`), round to nearest, saturating `as u64` cast.  NaN/infinity have
no exact-rational counterpart, so that guard is vacuous in the model. -/
def human_to_token_amount (human_amount : ℚ) (decimals : Nat) :
    Except ToolkitError Nat :=
  if human_amount < 0 then
    .error (.AmountValidation "Amount cannot be negative")
  else
    let multiplier : Nat := 10 ^ decimals % 2 ^ 64
    let token_amount : ℚ := human_amount * (multiplier : ℚ)
    if (2 : ℚ) ^ 64 < token_amount then
      .error (.AmountValidation "Amount too large, would overflow")
    else
      .ok (min (round token_amount).toNat u64Max)

/-- `AmountValidator::format_amount_with_symbol`: fixed-point render, trim
trailing `'0'`s then trailing `'.'`s, append the symbol. -/
def format_amount_with_symbol (amount decimals : Nat) (symbol : String) : String :=
  let formatted := format_amount amount decimals
  let trimmed := trimEndMatches (trimEndMatches formatted '0') '.'
  trimmed ++ " " ++ symbol

/-- `AmountValidator::requires_confirmation`: inclusive USD threshold test. -/
def requires_confirmation (amount_usd threshold : ℚ) : Bool :=
  threshold ≤ amount_usd

end AmountValidator

/-- `RiskLevel` from `safety/validator.rs`: `Low < Medium < High < Critical`. -/
inductive RiskLevel where
  | Low
  | Medium
  | High
  | Critical
deriving DecidableEq, Repr

/-- Numeric rank realising the derived `Ord` of `RiskLevel`. -/
def RiskLevel.rank : RiskLevel → Nat
  | .Low => 0
  | .Medium => 1
  | .High => 2
  | .Critical => 3

instance : LT RiskLevel := ⟨fun a b => a.rank < b.rank⟩
instance : LE RiskLevel := ⟨fun a b => a.rank ≤ b.rank⟩

instance (a b : RiskLevel) : Decidable (a < b) :=
  inferInstanceAs (Decidable (a.rank < b.rank))

instance (a b : RiskLevel) : Decidable (a ≤ b) :=
  inferInstanceAs (Decidable (a.rank ≤ b.rank))

/-- `RiskLevel::is_blocking`: only `Critical` blocks. -/
def RiskLevel.is_blocking : RiskLevel → Bool
  | .Critical => true
  | _ => false

/-- `RiskLevel::requires_confirmation`: `High` and `Critical` require
explicit user confirmation. -/
def RiskLevel.requires_confirmation : RiskLevel → Bool
  | .High => true
  | .Critical => true
  | _ => false

/-- `SafetyReport` from `safety/validator.rs`. -/
structure SafetyReport where
  approved : Bool
  risk_level : RiskLevel
  warnings : List String
  blockers : List String
  from_display : String
  to_display : String
  amount_display : String
  requires_confirmation : Bool
deriving DecidableEq, Repr

namespace SafetyReport

/-- `SafetyReport::approved` (constructor of the initial low-risk report;
named `approvedInit` here because `approved` is the field projection). -/
def approvedInit (fromPk toPk : Pubkey) (amount_display : String) : SafetyReport :=
  { approved := true
    risk_level := RiskLevel.Low
    warnings := []
    blockers := []
    from_display := AddressVerifier.format_address_short fromPk
    to_display := AddressVerifier.format_address_short toPk
    amount_display := amount_display
    requires_confirmation := false }

/-- `SafetyReport::add_warning`: push the warning, raise the risk level to
the maximum, set `requires_confirmation` once the level reaches `High`. -/
def add_warning (self : SafetyReport) (warning : String) (level : RiskLevel) :
    SafetyReport :=
  let self := { self with warnings := self.warnings ++ [warning] }
  let self := if self.risk_level < level then { self with risk_level := level } else self
  if self.risk_level.requires_confirmation then
    { self with requires_confirmation := true }
  else self

/-- `SafetyReport::add_blocker`: push the blocker, clear approval, force
`Critical`. -/
def add_blocker (self : SafetyReport) (blocker : String) : SafetyReport :=
  { self with
      blockers := self.blockers ++ [blocker]
      approved := false
      risk_level := RiskLevel.Critical }

end SafetyReport

/-- `SafetyProtocol` policy configuration. -/
structure SafetyProtocol where
  strict_mode : Bool
  large_amount_threshold_usd : ℚ
  token_price_usd : Option ℚ
deriving DecidableEq, Repr

namespace SafetyProtocol

/-- `SafetyProtocol::new`: non-strict, $1000 threshold, no price. -/
def new : SafetyProtocol :=
  { strict_mode := false, large_amount_threshold_usd := 1000, token_price_usd := none }

/-- `SafetyProtocol::strict`. -/
def strict (self : SafetyProtocol) : SafetyProtocol := { self with strict_mode := true }

/-- `SafetyProtocol::large_amount_threshold`. -/
def large_amount_threshold (self : SafetyProtocol) (threshold : ℚ) : SafetyProtocol :=
  { self with large_amount_threshold_usd := threshold }

/-- `SafetyProtocol::token_price`. -/
def token_price (self : SafetyProtocol) (price : ℚ) : SafetyProtocol :=
  { self with token_price_usd := some price }

end SafetyProtocol

/-- Step 1 of `validate_offline`: blocker on an invalid sender address. -/
def checkFromAddress (fromPk : Pubkey) (r : SafetyReport) : SafetyReport :=
  match AddressVerifier.verify_address fromPk.to_string with
  | .error e => r.add_blocker ("Invalid sender address: " ++ e.display)
  | .ok _ => r

/-- Step 1 of `validate_offline` for the recipient. -/
def checkToAddress (toPk : Pubkey) (r : SafetyReport) : SafetyReport :=
  match AddressVerifier.verify_address toPk.to_string with
  | .error e => r.add_blocker ("Invalid recipient address: " ++ e.display)
  | .ok _ => r

/-- Self-transfer check of `validate_offline`. -/
def checkSelfTransfer (fromPk toPk : Pubkey) (r : SafetyReport) : SafetyReport :=
  if fromPk = toPk then r.add_warning "Sending to yourself" RiskLevel.Medium else r

/-- Blocker reclassification of `validate_offline`: when the amount is
invalid, every validation warning mentioning "exceeds balance" or "zero"
becomes a blocker. -/
def applyAmountBlockers (validation : AmountValidation) (r : SafetyReport) :
    SafetyReport :=
  if validation.is_valid then r
  else
    validation.warnings.foldl (fun r w =>
      if strContains w "exceeds balance" || strContains w "zero" then
        r.add_blocker w
      else r) r

/-- Warning reclassification of `validate_offline`: the remaining validation
warnings are re-added with a severity keyed on their text. -/
def applyAmountWarnings (validation : AmountValidation) (r : SafetyReport) :
    SafetyReport :=
  validation.warnings.foldl (fun r w =>
    if !(strContains w "exceeds balance") && !(strContains w "zero") then
      r.add_warning w
        (if strContains w "entire balance" then RiskLevel.High
         else if strContains w "%" then RiskLevel.Medium
         else RiskLevel.Low)
    else r) r

/-- Large-amount check of `validate_offline`: only with a configured price. -/
def checkLargeAmount (p : SafetyProtocol) (amount decimals : Nat)
    (r : SafetyReport) : SafetyReport :=
  match p.token_price_usd with
  | some price =>
    let human_amount := AmountValidator.token_to_human_amount amount decimals
    let usd_value := human_amount * price
    if AmountValidator.requires_confirmation usd_value p.large_amount_threshold_usd then
      r.add_warning
        ("Large transfer: ~$" ++ AmountValidator.formatQFixed usd_value 2 ++
          " USD exceeds $" ++ AmountValidator.formatQFixed p.large_amount_threshold_usd 0 ++
          " threshold")
        RiskLevel.High
    else r
  | none => r

/-- Strict-mode escalation of `validate_offline`: drain the warnings and
re-add each as a `"STRICT: "`-prefixed blocker. -/
def SafetyProtocol.apply_strict_mode (p : SafetyProtocol) (report : SafetyReport) :
    SafetyReport :=
  if p.strict_mode && !report.warnings.isEmpty then
    report.warnings.foldl (fun r w => r.add_blocker ("STRICT: " ++ w))
      { report with warnings := [] }
  else report

/-- `SafetyProtocol::validate_offline` up to (but excluding) the strict-mode
escalation, as a composition of the checks in source order. -/
def SafetyProtocol.validate_offline_core (p : SafetyProtocol) (fromPk toPk : Pubkey)
    (amount decimals balance : Nat) : SafetyReport :=
  let validation := AmountValidator.validate_amount amount decimals balance
  checkLargeAmount p amount decimals
    (applyAmountWarnings validation
      (applyAmountBlockers validation
        (checkSelfTransfer fromPk toPk
          (checkToAddress toPk
            (checkFromAddress fromPk
              (SafetyReport.approvedInit fromPk toPk
                (AmountValidator.format_amount amount decimals)))))))

/-- `SafetyProtocol::validate_offline`: the core checks followed by the
strict-mode escalation. -/
def SafetyProtocol.validate_offline (p : SafetyProtocol) (fromPk toPk : Pubkey)
    (amount decimals balance : Nat) : SafetyReport :=
  p.apply_strict_mode (p.validate_offline_core fromPk toPk amount decimals balance)

/-- Concrete 32-byte key (the all-zero key; base58 form `"1" * 32`). -/
def pkA : Pubkey := ⟨List.replicate 32 0⟩

/-- Concrete 32-byte key distinct from `pkA` (base58 form `"1" * 31 ++ "2"`). -/
def pkB : Pubkey := ⟨List.replicate 31 0 ++ [1]⟩

/-! ### Invariants of the report construction -/

/-- The C1 invariant: approval is equivalent to an empty blocker list. -/
def approvedIffNoBlockers (r : SafetyReport) : Prop :=
  r.approved = true ↔ r.blockers = []

/-- The C2 invariant (one direction): the confirmation flag is only set once
the risk level reached `High`. -/
def confImpliesHigh (r : SafetyReport) : Prop :=
  r.requires_confirmation = true → r.risk_level.requires_confirmation = true

theorem RiskLevel.requires_confirmation_mono {a b : RiskLevel}
    (ha : a.requires_confirmation = true) (hab : a.rank ≤ b.rank) :
    b.requires_confirmation = true := by
  cases a <;> cases b <;> simp_all [RiskLevel.requires_confirmation, RiskLevel.rank]

theorem SafetyReport.add_warning_fields (r : SafetyReport) (w : String) (l : RiskLevel) :
    (r.add_warning w l).approved = r.approved ∧
    (r.add_warning w l).blockers = r.blockers ∧
    (r.add_warning w l).warnings = r.warnings ++ [w] := by
  simp only [SafetyReport.add_warning]
  split <;> split <;> exact ⟨rfl, rfl, rfl⟩

theorem approvedInv_add_warning {r : SafetyReport} (h : approvedIffNoBlockers r)
    (w : String) (l : RiskLevel) : approvedIffNoBlockers (r.add_warning w l) := by
  unfold approvedIffNoBlockers
  rw [(r.add_warning_fields w l).1, (r.add_warning_fields w l).2.1]
  exact h

theorem approvedInv_add_blocker (r : SafetyReport) (b : String) :
    approvedIffNoBlockers (r.add_blocker b) := by
  unfold approvedIffNoBlockers SafetyReport.add_blocker
  simp

theorem RiskLevel.lt_def (a b : RiskLevel) : a < b ↔ a.rank < b.rank := Iff.rfl

theorem confInv_add_warning {r : SafetyReport} (h : confImpliesHigh r)
    (w : String) (l : RiskLevel) : confImpliesHigh (r.add_warning w l) := by
  unfold confImpliesHigh
  simp only [SafetyReport.add_warning]
  split
  · rename_i hlt
    split
    · intro _; assumption
    · rename_i hlf
      intro hc
      have hle : r.risk_level.rank ≤ l.rank :=
        Nat.le_of_lt ((RiskLevel.lt_def _ _).mp hlt)
      have := RiskLevel.requires_confirmation_mono (h hc) hle
      simp_all
  · split
    · intro _; assumption
    · exact h

theorem confInv_add_blocker (r : SafetyReport) (b : String) :
    confImpliesHigh (r.add_blocker b) := by
  unfold confImpliesHigh SafetyReport.add_blocker
  intro _
  rfl

theorem foldl_report_inv {α : Type} (Inv : SafetyReport → Prop)
    (step : SafetyReport → α → SafetyReport)
    (hstep : ∀ r a, Inv r → Inv (step r a)) :
    ∀ (l : List α) (r : SafetyReport), Inv r → Inv (l.foldl step r) := by
  intro l
  induction l with
  | nil => exact fun r h => h
  | cons a t ih => exact fun r hr => ih _ (hstep r a hr)

theorem checkFromAddress_inv (Inv : SafetyReport → Prop)
    (hb : ∀ (r : SafetyReport) (b : String), Inv r → Inv (r.add_blocker b))
    (pk : Pubkey) {r : SafetyReport} (hr : Inv r) : Inv (checkFromAddress pk r) := by
  unfold checkFromAddress
  split
  · exact hb _ _ hr
  · exact hr

theorem checkToAddress_inv (Inv : SafetyReport → Prop)
    (hb : ∀ (r : SafetyReport) (b : String), Inv r → Inv (r.add_blocker b))
    (pk : Pubkey) {r : SafetyReport} (hr : Inv r) : Inv (checkToAddress pk r) := by
  unfold checkToAddress
  split
  · exact hb _ _ hr
  · exact hr

theorem checkSelfTransfer_inv (Inv : SafetyReport → Prop)
    (hw : ∀ (r : SafetyReport) (w : String) (l : RiskLevel), Inv r → Inv (r.add_warning w l))
    (f t : Pubkey) {r : SafetyReport} (hr : Inv r) : Inv (checkSelfTransfer f t r) := by
  unfold checkSelfTransfer
  split
  · exact hw _ _ _ hr
  · exact hr

theorem applyAmountBlockers_inv (Inv : SafetyReport → Prop)
    (hb : ∀ (r : SafetyReport) (b : String), Inv r → Inv (r.add_blocker b))
    (v : AmountValidation) {r : SafetyReport} (hr : Inv r) :
    Inv (applyAmountBlockers v r) := by
  unfold applyAmountBlockers
  split
  · exact hr
  · refine foldl_report_inv Inv _ ?_ _ _ hr
    intro r a hra
    split
    · exact hb _ _ hra
    · exact hra

theorem applyAmountWarnings_inv (Inv : SafetyReport → Prop)
    (hw : ∀ (r : SafetyReport) (w : String) (l : RiskLevel), Inv r → Inv (r.add_warning w l))
    (v : AmountValidation) {r : SafetyReport} (hr : Inv r) :
    Inv (applyAmountWarnings v r) := by
  unfold applyAmountWarnings
  refine foldl_report_inv Inv _ ?_ _ _ hr
  intro r a hra
  split
  · exact hw _ _ _ hra
  · exact hra

theorem checkLargeAmount_inv (Inv : SafetyReport → Prop)
    (hw : ∀ (r : SafetyReport) (w : String) (l : RiskLevel), Inv r → Inv (r.add_warning w l))
    (p : SafetyProtocol) (amount decimals : Nat)
    {r : SafetyReport} (hr : Inv r) : Inv (checkLargeAmount p amount decimals r) := by
  unfold checkLargeAmount
  split
  · dsimp only
    split
    · exact hw _ _ _ hr
    · exact hr
  · exact hr

theorem apply_strict_mode_inv (Inv : SafetyReport → Prop)
    (hb : ∀ (r : SafetyReport) (b : String), Inv r → Inv (r.add_blocker b))
    (p : SafetyProtocol)
    (hclear : ∀ r : SafetyReport, Inv r → Inv { r with warnings := [] })
    {r : SafetyReport} (hr : Inv r) : Inv (p.apply_strict_mode r) := by
  unfold SafetyProtocol.apply_strict_mode
  split
  · refine foldl_report_inv Inv _ ?_ _ _ (hclear _ hr)
    intro r a hra
    exact hb _ _ hra
  · exact hr

/-- Any property preserved by `add_warning` and `add_blocker`, insensitive to
draining the warning list, and true of the initial report, holds of every
`validate_offline` result. -/
theorem validate_offline_inv (Inv : SafetyReport → Prop)
    (hw : ∀ (r : SafetyReport) (w : String) (l : RiskLevel), Inv r → Inv (r.add_warning w l))
    (hb : ∀ (r : SafetyReport) (b : String), Inv r → Inv (r.add_blocker b))
    (hclear : ∀ r : SafetyReport, Inv r → Inv { r with warnings := [] })
    (hbase : ∀ (f t : Pubkey) (s : String), Inv (SafetyReport.approvedInit f t s))
    (p : SafetyProtocol) (fromPk toPk : Pubkey) (amount decimals balance : Nat) :
    Inv (p.validate_offline fromPk toPk amount decimals balance) := by
  unfold SafetyProtocol.validate_offline SafetyProtocol.validate_offline_core
  exact apply_strict_mode_inv Inv hb p hclear
    (checkLargeAmount_inv Inv hw _ _ _
      (applyAmountWarnings_inv Inv hw _
        (applyAmountBlockers_inv Inv hb _
          (checkSelfTransfer_inv Inv hw _ _
            (checkToAddress_inv Inv hb _
              (checkFromAddress_inv Inv hb _ (hbase _ _ _)))))))

/-! ### Characterisation of the strict-mode blocker fold -/

theorem foldl_add_blocker_warnings (f : String → String) :
    ∀ (l : List String) (r : SafetyReport),
      (l.foldl (fun r w => r.add_blocker (f w)) r).warnings = r.warnings := by
  intro l
  induction l with
  | nil => intro r; rfl
  | cons a t ih => intro r; rw [List.foldl_cons, ih]; rfl

theorem foldl_add_blocker_blockers (f : String → String) :
    ∀ (l : List String) (r : SafetyReport),
      (l.foldl (fun r w => r.add_blocker (f w)) r).blockers = r.blockers ++ l.map f := by
  intro l
  induction l with
  | nil => intro r; simp
  | cons a t ih =>
    intro r
    rw [List.foldl_cons, ih]
    simp [SafetyReport.add_blocker]

theorem foldl_add_blocker_approved (f : String → String) :
    ∀ (l : List String) (r : SafetyReport),
      (l.foldl (fun r w => r.add_blocker (f w)) r).approved = (r.approved && l.isEmpty) := by
  intro l
  induction l with
  | nil => intro r; simp
  | cons a t ih =>
    intro r
    rw [List.foldl_cons, ih]
    simp [SafetyReport.add_blocker]

/-! ### Claim theorems -/

/-- C1: for every report returned by `SafetyProtocol::validate_offline` —
any sender/recipient keys, amount, decimals, balance, and any policy —
`approved` is `true` if and only if the `blockers` list is empty. -/
theorem C1_approved_iff_no_blockers (p : SafetyProtocol) (fromPk toPk : Pubkey)
    (amount decimals balance : Nat) :
    (p.validate_offline fromPk toPk amount decimals balance).approved = true ↔
    (p.validate_offline fromPk toPk amount decimals balance).blockers = [] := by
  refine validate_offline_inv approvedIffNoBlockers ?_ ?_ ?_ ?_ p fromPk toPk amount decimals balance
  · exact fun r w l hr => approvedInv_add_warning hr w l
  · exact fun r b _ => approvedInv_add_blocker r b
  · exact fun r hr => hr
  · intro f t s
    unfold approvedIffNoBlockers SafetyReport.approvedInit
    simp

/-- C2 (amended): whenever a `validate_offline` report carries
`requires_confirmation = true`, its final risk level is `High` or `Critical`
(expressed through `RiskLevel::requires_confirmation`).  The converse —
claimed by the spec as an equivalence — is false: `add_blocker` forces
`risk_level = Critical` without setting `requires_confirmation`
(see `C2_counterexample`). -/
theorem C2_confirmation_implies_high (p : SafetyProtocol) (fromPk toPk : Pubkey)
    (amount decimals balance : Nat)
    (h : (p.validate_offline fromPk toPk amount decimals balance).requires_confirmation = true) :
    (p.validate_offline fromPk toPk amount decimals balance).risk_level.requires_confirmation
      = true := by
  refine validate_offline_inv confImpliesHigh ?_ ?_ ?_ ?_ p fromPk toPk amount decimals balance h
  · exact fun r w l hr => confInv_add_warning hr w l
  · exact fun r b _ => confInv_add_blocker r b
  · exact fun r hr => hr
  · intro f t s hfalse
    simp [SafetyReport.approvedInit] at hfalse

/-- C2 witness: the entire-balance transfer sets the confirmation flag, and
the theorem then yields a `High`-or-`Critical` risk level. -/
theorem C2_witness :
    (SafetyProtocol.new.validate_offline pkA pkB 10000000000 9 10000000000).requires_confirmation
        = true ∧
    (SafetyProtocol.new.validate_offline pkA pkB 10000000000 9
        10000000000).risk_level.requires_confirmation = true :=
  ⟨by with_unfolding_all decide,
    C2_confirmation_implies_high SafetyProtocol.new pkA pkB 10000000000 9 10000000000
      (by with_unfolding_all decide)⟩

/-- C2 counterexample: a zero-amount transfer between two distinct valid
keys produces a blocker, hence `risk_level = Critical` (which is ≥ `High`),
while `requires_confirmation` stays `false` — refuting the claimed
equivalence `requires_confirmation ↔ risk_level ≥ High`. -/
theorem C2_counterexample :
    (SafetyProtocol.new.validate_offline pkA pkB 0 9 10000000000).risk_level
        = RiskLevel.Critical ∧
    (SafetyProtocol.new.validate_offline pkA pkB 0 9 10000000000).requires_confirmation
        = false := by
  with_unfolding_all decide

/-- C3: with strict mode enabled, if the checks raised at least one warning,
the final report is not approved, its warnings list is empty, and every
raised warning reappears in `blockers` with a `"STRICT: "` prefix. -/
theorem C3_strict_escalation (p : SafetyProtocol) (fromPk toPk : Pubkey)
    (amount decimals balance : Nat)
    (hstrict : p.strict_mode = true)
    (hwarn : (p.validate_offline_core fromPk toPk amount decimals balance).warnings ≠ []) :
    (p.validate_offline fromPk toPk amount decimals balance).approved = false ∧
    (p.validate_offline fromPk toPk amount decimals balance).warnings = [] ∧
    ∀ w ∈ (p.validate_offline_core fromPk toPk amount decimals balance).warnings,
      ("STRICT: " ++ w) ∈ (p.validate_offline fromPk toPk amount decimals balance).blockers := by
  unfold SafetyProtocol.validate_offline SafetyProtocol.apply_strict_mode
  have hcond : (p.strict_mode &&
      !(p.validate_offline_core fromPk toPk amount decimals balance).warnings.isEmpty) = true := by
    simp [hstrict, List.isEmpty_iff, hwarn]
  rw [if_pos hcond]
  refine ⟨?_, ?_, ?_⟩
  · rw [foldl_add_blocker_approved (fun w => "STRICT: " ++ w)]
    simp [List.isEmpty_iff, hwarn]
  · rw [foldl_add_blocker_warnings (fun w => "STRICT: " ++ w)]
  · intro w hw
    rw [foldl_add_blocker_blockers (fun w => "STRICT: " ++ w)]
    exact List.mem_append_right _ (List.mem_map_of_mem _ hw)

/-- C3 witness: a strict-mode self-transfer raises the self-transfer warning;
the theorem then yields a blocked report with the `"STRICT: "`-prefixed
blocker and an emptied warning list. -/
theorem C3_witness :
    SafetyProtocol.new.strict.strict_mode = true ∧
    (SafetyProtocol.new.strict.validate_offline_core pkA pkA 1000000000 9
      10000000000).warnings ≠ [] ∧
    (SafetyProtocol.new.strict.validate_offline pkA pkA 1000000000 9
      10000000000).approved = false ∧
    (SafetyProtocol.new.strict.validate_offline pkA pkA 1000000000 9
      10000000000).warnings = [] ∧
    ("STRICT: " ++ "Sending to yourself") ∈
      (SafetyProtocol.new.strict.validate_offline pkA pkA 1000000000 9
        10000000000).blockers := by
  have hwarn : (SafetyProtocol.new.strict.validate_offline_core pkA pkA 1000000000 9
      10000000000).warnings ≠ [] := by with_unfolding_all decide
  have h := C3_strict_escalation SafetyProtocol.new.strict pkA pkA 1000000000 9 10000000000
    rfl hwarn
  refine ⟨rfl, hwarn, h.1, h.2.1, h.2.2 "Sending to yourself" ?_⟩
  with_unfolding_all decide

/-- C8: for two distinct valid addresses, a 1-unit transfer at 9 decimals
against a 10-unit balance under the default policy (no token price) is
approved at `Low` risk with no warnings and no blockers. -/
theorem C8_default_happy_path (fromPk toPk : Pubkey)
    (hfrom : (AddressVerifier.verify_address fromPk.to_string).isOk = true)
    (hto : (AddressVerifier.verify_address toPk.to_string).isOk = true)
    (hne : fromPk ≠ toPk) :
    (SafetyProtocol.new.validate_offline fromPk toPk 1000000000 9 10000000000).approved
        = true ∧
    (SafetyProtocol.new.validate_offline fromPk toPk 1000000000 9 10000000000).risk_level
        = RiskLevel.Low ∧
    (SafetyProtocol.new.validate_offline fromPk toPk 1000000000 9 10000000000).warnings
        = [] ∧
    (SafetyProtocol.new.validate_offline fromPk toPk 1000000000 9 10000000000).blockers
        = [] := by
  have hvalid : (AmountValidator.validate_amount 1000000000 9 10000000000).is_valid
      = true := by
    with_unfolding_all decide
  have hwarns : (AmountValidator.validate_amount 1000000000 9 10000000000).warnings
      = [] := by
    with_unfolding_all decide
  obtain ⟨pkf, hpkf⟩ : ∃ pk, AddressVerifier.verify_address fromPk.to_string = .ok pk := by
    cases h : AddressVerifier.verify_address fromPk.to_string with
    | ok pk => exact ⟨pk, rfl⟩
    | error e => rw [h] at hfrom; simp [Except.isOk, Except.toBool] at hfrom
  obtain ⟨pkt, hpkt⟩ : ∃ pk, AddressVerifier.verify_address toPk.to_string = .ok pk := by
    cases h : AddressVerifier.verify_address toPk.to_string with
    | ok pk => exact ⟨pk, rfl⟩
    | error e => rw [h] at hto; simp [Except.isOk, Except.toBool] at hto
  unfold SafetyProtocol.validate_offline SafetyProtocol.validate_offline_core
  simp only [checkFromAddress, checkToAddress, checkSelfTransfer, applyAmountBlockers,
    applyAmountWarnings, checkLargeAmount, SafetyProtocol.apply_strict_mode,
    SafetyProtocol.new, hpkf, hpkt, if_neg hne, hvalid, hwarns, if_true,
    List.foldl_nil]
  simp [SafetyReport.approvedInit]

/-- C8 witness: the two concrete distinct valid keys `pkA`, `pkB` satisfy the
hypotheses, and the theorem yields the approved low-risk report. -/
theorem C8_witness :
    (AddressVerifier.verify_address pkA.to_string).isOk = true ∧
    (AddressVerifier.verify_address pkB.to_string).isOk = true ∧
    pkA ≠ pkB ∧
    (SafetyProtocol.new.validate_offline pkA pkB 1000000000 9 10000000000).approved
        = true ∧
    (SafetyProtocol.new.validate_offline pkA pkB 1000000000 9 10000000000).risk_level
        = RiskLevel.Low := by
  have hfrom : (AddressVerifier.verify_address pkA.to_string).isOk = true := by
    with_unfolding_all decide
  have hto : (AddressVerifier.verify_address pkB.to_string).isOk = true := by
    with_unfolding_all decide
  have hne : pkA ≠ pkB := by decide
  have h := C8_default_happy_path pkA pkB hfrom hto hne
  exact ⟨hfrom, hto, hne, h.1, h.2.1⟩

/-- C4 (amended): `verify_address` rejects the genuinely empty string with
the empty-address reason, but the emptiness test runs *before* trimming, so
a nonempty whitespace-only input slips past it, is trimmed to `""`, and is
rejected by the length check with a "got 0" length error instead
(see `C4_counterexample`). -/
theorem C4_empty_and_whitespace (s : String) (hne : s ≠ "") (htrim : s.trim = "") :
    AddressVerifier.verify_address "" =
      Except.error (ToolkitError.InvalidAddress "" "Address cannot be empty") ∧
    AddressVerifier.verify_address s =
      Except.error (ToolkitError.InvalidAddress ""
        "Invalid length: expected 32-44 characters, got 0") := by
  constructor
  · with_unfolding_all decide
  · have hempty : s.isEmpty = false := by
      rcases h : s.isEmpty with _ | _
      · rfl
      · exact absurd ((String.isEmpty_iff s).mp h) hne
    unfold AddressVerifier.verify_address
    rw [if_neg (by simp [hempty])]
    rw [htrim]
    with_unfolding_all decide

/-- C4 witness: the single-space string is nonempty, trims to empty, and the
theorem produces the length-error outcome for it. -/
theorem C4_witness :
    (" " : String) ≠ "" ∧ (" " : String).trim = "" ∧
    AddressVerifier.verify_address " " =
      Except.error (ToolkitError.InvalidAddress ""
        "Invalid length: expected 32-44 characters, got 0") := by
  have htrim : (" " : String).trim = "" := by with_unfolding_all decide
  have h := C4_empty_and_whitespace " " (by decide) htrim
  exact ⟨by decide, htrim, h.2⟩

/-- C4 counterexample: on the whitespace-only input `" "` (trimmed form
empty), `verify_address` returns the length error, not the empty-address
error claimed by the spec. -/
theorem C4_counterexample :
    AddressVerifier.verify_address " " =
      Except.error (ToolkitError.InvalidAddress ""
        "Invalid length: expected 32-44 characters, got 0") ∧
    AddressVerifier.verify_address " " ≠
      Except.error (ToolkitError.InvalidAddress " " "Address cannot be empty") := by
  constructor
  · with_unfolding_all decide
  · with_unfolding_all decide

/-- C5: `likely_typo` holds exactly when the reported difference count is in
`[1, 2]`; the reported count is the number of positions (over the longer
trimmed string) where the trimmed inputs differ; and comparing any string
with itself matches with zero differences. -/
theorem C5_compare_addresses (addr1 addr2 : String) :
    ((AddressVerifier.compare_addresses addr1 addr2).likely_typo = true ↔
      0 < (AddressVerifier.compare_addresses addr1 addr2).difference_count ∧
        (AddressVerifier.compare_addresses addr1 addr2).difference_count ≤ 2) ∧
    (AddressVerifier.compare_addresses addr1 addr2).difference_count =
      ((List.range (max addr1.trim.toList.length addr2.trim.toList.length)).filter
        (fun i => addr1.trim.toList[i]? != addr2.trim.toList[i]?)).length ∧
    (AddressVerifier.compare_addresses addr1 addr1).«matches» = true ∧
    (AddressVerifier.compare_addresses addr1 addr1).difference_count = 0 := by
  have hself : AddressVerifier.compare_addresses addr1 addr1 =
      { «matches» := true, difference_count := 0, difference_positions := [],
        likely_typo := false } := by
    unfold AddressVerifier.compare_addresses
    rw [if_pos rfl]
  refine ⟨?_, ?_, by rw [hself], by rw [hself]⟩
  · simp only [AddressVerifier.compare_addresses]
    split
    · simp
    · simp [Bool.and_eq_true, decide_eq_true_iff]
  · simp only [AddressVerifier.compare_addresses]
    split
    · rename_i heq
      simp [heq]
    · rfl

/-- C6: `validate_amount` marks an amount valid exactly when it is positive
and does not exceed the balance. -/
theorem C6_is_valid_iff (amount decimals balance : Nat) :
    (AmountValidator.validate_amount amount decimals balance).is_valid = true ↔
      0 < amount ∧ amount ≤ balance := by
  unfold AmountValidator.validate_amount
  simp only [Bool.and_eq_true, decide_eq_true_iff]
  exact and_comm

theorem round_rat_mono {x y : ℚ} (h : x ≤ y) : round x ≤ round y := by
  rw [round_eq, round_eq]
  exact Int.floor_le_floor (by linarith)

theorem pow10_mod_eq {d : Nat} (hd : d ≤ 19) : 10 ^ d % 2 ^ 64 = 10 ^ d :=
  Nat.mod_eq_of_lt
    (lt_of_le_of_lt (Nat.pow_le_pow_right (by norm_num) hd) (by norm_num))

/-- C7 (amended): the concrete conversions from the spec hold, and in
general `human_to_token_amount` returns the product `human * 10^decimals`
rounded to the nearest integer whenever that product is at most `u64::MAX`;
but the overflow error only fires for products strictly above `2^64`
(the value of `u64::MAX as f64`), and products in `(u64::MAX, 2^64]`
saturate silently to `u64::MAX` (see `C7_counterexample`).  The `decimals ≤ 19`
bound keeps `10u64.pow(decimals)` below its wrap-around. -/
theorem C7_amount_conversion :
    AmountValidator.human_to_token_amount ((3:ℚ)/2) 9 = Except.ok 1500000000 ∧
    AmountValidator.human_to_token_amount ((1:ℚ)/1000) 9 = Except.ok 1000000 ∧
    AmountValidator.token_to_human_amount 1500000000 9 = (3:ℚ)/2 ∧
    (∀ (q : ℚ) (d : Nat), 0 ≤ q → d ≤ 19 → q * (10:ℚ)^d ≤ (u64Max:ℚ) →
      AmountValidator.human_to_token_amount q d =
        Except.ok (round (q * (10:ℚ)^d)).toNat) ∧
    (∀ (q : ℚ) (d : Nat), 0 ≤ q → d ≤ 19 → (2:ℚ)^64 < q * (10:ℚ)^d →
      AmountValidator.human_to_token_amount q d =
        Except.error (ToolkitError.AmountValidation "Amount too large, would overflow")) ∧
    (∀ (q : ℚ) (d : Nat), 0 ≤ q → d ≤ 19 →
      (u64Max:ℚ) < q * (10:ℚ)^d → q * (10:ℚ)^d ≤ (2:ℚ)^64 →
      AmountValidator.human_to_token_amount q d = Except.ok u64Max) := by
  have hcast : ∀ d : Nat, d ≤ 19 → ((10 ^ d % 2 ^ 64 : ℕ) : ℚ) = (10:ℚ)^d := by
    intro d hd
    rw [pow10_mod_eq hd]
    push_cast
    ring
  have hmax : (u64Max:ℚ) < (2:ℚ)^64 := by
    norm_num [u64Max]
  refine ⟨by with_unfolding_all decide, by with_unfolding_all decide,
    by with_unfolding_all decide, ?_, ?_, ?_⟩
  · intro q d hq hd hle
    unfold AmountValidator.human_to_token_amount
    rw [if_neg (not_lt.mpr hq)]
    simp only [hcast d hd]
    rw [if_neg (not_lt.mpr (le_trans hle (le_of_lt hmax)))]
    have hb : (round (q * (10:ℚ)^d)).toNat ≤ u64Max := by
      rw [Int.toNat_le]
      calc round (q * (10:ℚ)^d) ≤ round ((u64Max:ℚ)) := round_rat_mono hle
        _ = (u64Max:ℤ) := round_natCast u64Max
    rw [min_eq_left hb]
  · intro q d hq hd hgt
    unfold AmountValidator.human_to_token_amount
    rw [if_neg (not_lt.mpr hq)]
    simp only [hcast d hd]
    rw [if_pos hgt]
  · intro q d hq hd hgt hle
    unfold AmountValidator.human_to_token_amount
    rw [if_neg (not_lt.mpr hq)]
    simp only [hcast d hd]
    rw [if_neg (not_lt.mpr hle)]
    have hb : u64Max ≤ (round (q * (10:ℚ)^d)).toNat := by
      have h1 : (u64Max:ℤ) ≤ round (q * (10:ℚ)^d) := by
        calc (u64Max:ℤ) = round ((u64Max:ℚ)) := (round_natCast u64Max).symm
          _ ≤ round (q * (10:ℚ)^d) := round_rat_mono (le_of_lt hgt)
      omega
    rw [min_eq_right hb]

/-- C7 witness: at `q = 3`, `decimals = 0` the hypotheses of the general
rounding statement hold and the theorem returns `Ok 3`. -/
theorem C7_witness :
    (0:ℚ) ≤ 3 ∧ (0:Nat) ≤ 19 ∧ (3:ℚ) * (10:ℚ)^(0:Nat) ≤ (u64Max:ℚ) ∧
    AmountValidator.human_to_token_amount 3 0 =
      Except.ok (round ((3:ℚ) * (10:ℚ)^(0:Nat))).toNat := by
  have h1 : (3:ℚ) * (10:ℚ)^(0:Nat) ≤ (u64Max:ℚ) := by norm_num [u64Max]
  exact ⟨by norm_num, by norm_num,
    h1, C7_amount_conversion.2.2.2.1 3 0 (by norm_num) (by norm_num) h1⟩

/-- C7 counterexample: at `human = 2^64`, `decimals = 0` the product
`2^64 * 10^0 = 2^64` exceeds `u64::MAX`, yet no `Overflow` error is raised:
the guard compares against `u64::MAX as f64 = 2^64` and the saturating cast
returns `u64::MAX`. -/
theorem C7_counterexample :
    AmountValidator.human_to_token_amount ((2:ℚ)^64) 0 = Except.ok u64Max ∧
    (u64Max : ℚ) < (2:ℚ)^64 * (10:ℚ)^(0:Nat) := by
  constructor
  · with_unfolding_all decide
  · norm_num [u64Max]

/-- C9: on the 90-percent warning branch of `validate_amount` (positive
balance, percentage above 90 but not above 99) the amount is strictly below
the balance, so the `u64` subtraction `balance - amount` in the warning text
cannot underflow (the truncated natural subtraction agrees with the integer
one). -/
theorem C9_ninety_percent_branch (amount balance : Nat) (hb : 0 < balance)
    (h99 : ¬ 99 < AmountValidator.percentage amount balance)
    (h90 : 90 < AmountValidator.percentage amount balance) :
    amount < balance ∧ ((balance - amount : ℕ) : ℤ) = (balance : ℤ) - (amount : ℤ) := by
  have hbq : (0:ℚ) < (balance:ℚ) := by exact_mod_cast hb
  have key : amount < balance := by
    by_contra hge
    push_neg at hge
    have h1 : (balance:ℚ) ≤ (amount:ℚ) := by exact_mod_cast hge
    have h2 : (1:ℚ) ≤ (amount:ℚ)/(balance:ℚ) := (one_le_div hbq).mpr h1
    apply h99
    unfold AmountValidator.percentage
    nlinarith
  refine ⟨key, ?_⟩
  omega

/-- C9 witness: `amount = 95`, `balance = 100` lies on the 90-percent branch
and the theorem yields `95 < 100`. -/
theorem C9_witness :
    (0:Nat) < 100 ∧ ¬ 99 < AmountValidator.percentage 95 100 ∧
    90 < AmountValidator.percentage 95 100 ∧ (95:Nat) < 100 := by
  have h99 : ¬ 99 < AmountValidator.percentage 95 100 := by
    with_unfolding_all decide
  have h90 : 90 < AmountValidator.percentage 95 100 := by
    with_unfolding_all decide
  exact ⟨by decide, h99, h90,
    (C9_ninety_percent_branch 95 100 (by decide) h99 h90).1⟩

/-- C10: with `decimals = 0` the formatted amount has no decimal point, so
the trailing-zero trim eats the zeros of the integer itself:
`format_amount_with_symbol(100, 0, "X")` renders as `"1 X"`. -/
theorem C10_decimals_zero_trim :
    AmountValidator.format_amount_with_symbol 100 0 "X" = "1 X" ∧
    (AmountValidator.format_amount 100 0).contains '.' = false := by
  constructor
  · with_unfolding_all decide
  · with_unfolding_all decide
